import Mathlib

/-!
Shallow embedding of the resilient API client (`apps/web/lib/api.ts`) and the
client error telemetry pipeline (`apps/web/lib/monitoring.ts`) of the
cursorcode-ai frontend, with theorems settling the spec's claims about them.

JavaScript objects are modelled as association lists of string keys and
`JSValue`s; an object literal with spreads concatenates the entry lists and a
property lookup takes the last binding for a key (later keys override earlier
ones, as in JS).
-/

namespace CursorCode

/-- A JavaScript value as far as the monitored payloads need: `undefined`,
strings, numbers (the line/column arguments of `window.onerror`) and booleans. -/
inductive JSValue where
  | undef : JSValue
  | str : String → JSValue
  | num : Nat → JSValue
  | jsBool : Bool → JSValue
  deriving DecidableEq, Repr

/-- A JavaScript object: an ordered list of (key, value) bindings. -/
abbrev JSObject := List (String × JSValue)

/-- Property lookup on an object literal built by concatenation: the LAST
binding of a key wins (later spreads override earlier fields, as in JS);
a missing key reads as `undefined`. -/
def getProp (o : JSObject) (k : String) : JSValue :=
  match o.reverse.find? (fun kv => kv.1 = k) with
  | some kv => kv.2
  | none => JSValue.undef

/-- An optional string as a JS value: `undefined` when absent. -/
def optStrVal : Option String → JSValue
  | some s => JSValue.str s
  | none => JSValue.undef

/-- An optional number as a JS value: `undefined` when absent. -/
def optNatVal : Option Nat → JSValue
  | some n => JSValue.num n
  | none => JSValue.undef

/-- A JavaScript `Error` object: a message and an optional `stack` string. -/
structure JsError where
  message : String
  stack : Option String
  deriving DecidableEq, Repr

/-- The first argument of `reportFrontendError`: `Error | string`. -/
inductive ErrorOrString where
  | err : JsError → ErrorOrString
  | strv : String → ErrorOrString
  deriving DecidableEq, Repr

/-- `error instanceof Error ? error.message : error` in `reportFrontendError`. -/
def errMessage : ErrorOrString → String
  | .err e => e.message
  | .strv s => s

/-- `error instanceof Error ? error.stack : undefined` in `reportFrontendError`. -/
def errStack : ErrorOrString → Option String
  | .err e => e.stack
  | .strv _ => none

/-- The ambient browser state `monitoring.ts` reads: whether `window` and
`navigator` are defined, `window.location.href`, `navigator.userAgent`,
`new Date().toISOString()`, and the `stack` the runtime attaches to a freshly
constructed `Error`. -/
structure BrowserEnv where
  windowDefined : Bool
  navigatorDefined : Bool
  locationHref : String
  userAgent : String
  nowISO : String
  freshErrorStack : Option String
  deriving DecidableEq, Repr

/-- The payload object literal built inside `reportFrontendError`:
`{ message, stack, url, userAgent, timestamp, ...extra }`.  The spread of
`extra` comes after the base fields, so its bindings override them on lookup. -/
def buildPayload (e : ErrorOrString) (extra : JSObject) (env : BrowserEnv) : JSObject :=
  [("message", JSValue.str (errMessage e)),
   ("stack", optStrVal (errStack e)),
   ("url", JSValue.str (if env.windowDefined then env.locationHref else "unknown")),
   ("userAgent", JSValue.str (if env.navigatorDefined then env.userAgent else "unknown")),
   ("timestamp", JSValue.str env.nowISO)]
  ++ extra

/-- The outcome of the single `fetch` to `/api/monitoring/frontend-error`:
the promise resolves with an ok response, resolves with a non-ok response
(whose body text the code then reads), or rejects. -/
inductive FetchOutcome where
  | fetchOk : FetchOutcome
  | notOk : String → FetchOutcome
  | rejected : String → FetchOutcome
  deriving DecidableEq, Repr

/-- Console events emitted by `monitoring.ts`. -/
inductive MonLogEvent where
  | warnFailedReport : String → MonLogEvent
  | errorReportingFailed : String → MonLogEvent
  deriving DecidableEq, Repr

/-- The `try` block of `reportFrontendError`: build the payload, issue exactly
one `fetch`, and on a non-ok response log a warning.  A rejected fetch throws
out of the block (`Except.error`).  The second component counts fetch
attempts issued inside the block. -/
def reportTryBody (fetchRes : FetchOutcome) : Except String (List MonLogEvent) × Nat :=
  match fetchRes with
  | .fetchOk => (Except.ok [], 1)
  | .notOk bodyText => (Except.ok [MonLogEvent.warnFailedReport bodyText], 1)
  | .rejected m => (Except.error m, 1)

/-- What a call to `reportFrontendError` produces: the payload it built, how
many fetch attempts it issued, its console output, and whether an exception
escaped to the caller. -/
structure ReportOutcome where
  payload : JSObject
  fetchAttempts : Nat
  logs : List MonLogEvent
  threw : Bool
  deriving DecidableEq, Repr

/-- `reportFrontendError(error, extra)`: the whole body runs inside
`try ... catch (reportErr) { console.error(...) }`, so a rejected fetch is
caught and logged rather than rethrown, and no second attempt is made. -/
def reportFrontendError (e : ErrorOrString) (extra : JSObject) (env : BrowserEnv)
    (fetchRes : FetchOutcome) : ReportOutcome :=
  let payload := buildPayload e extra env
  match reportTryBody fetchRes with
  | (Except.ok logs, n) =>
      { payload := payload, fetchAttempts := n, logs := logs, threw := false }
  | (Except.error m, n) =>
      { payload := payload, fetchAttempts := n,
        logs := [MonLogEvent.errorReportingFailed m], threw := false }

/-- The arguments `window.onerror` is fired with: message, script url, line,
column, and the `Error` object when the runtime supplies one. -/
structure OnErrorArgs where
  msg : String
  url : Option String
  line : Option Nat
  col : Option Nat
  error : Option JsError
  deriving DecidableEq, Repr

/-- The `extra` object the installed `window.onerror` hook passes to
`reportFrontendError`: `{ source: "window.onerror", url, line, col }`. -/
def onErrorExtra (a : OnErrorArgs) : JSObject :=
  [("source", JSValue.str "window.onerror"),
   ("url", optStrVal a.url),
   ("line", optNatVal a.line),
   ("col", optNatVal a.col)]

/-- `error || new Error(String(msg))`: the supplied `Error` when present,
otherwise a freshly constructed `Error` whose message is the (already string)
`msg` and whose stack is whatever the runtime attaches at construction. -/
def onErrorReportInput (env : BrowserEnv) (a : OnErrorArgs) : ErrorOrString :=
  match a.error with
  | some e => ErrorOrString.err e
  | none => ErrorOrString.err { message := a.msg, stack := env.freshErrorStack }

/-- One observable step taken by an installed hook, in order: a report was
built and handed to delivery, or the previously registered handler was
invoked (recording its result, hence its arguments). -/
inductive HookTrace (α : Type) where
  | reported : JSObject → Nat → HookTrace α
  | calledPrev : α → HookTrace α
  deriving Repr

/-- Number of `reported` events in a hook trace. -/
def reportedCount {α : Type} : List (HookTrace α) → Nat
  | [] => 0
  | HookTrace.reported _ _ :: rest => 1 + reportedCount rest
  | HookTrace.calledPrev _ :: rest => reportedCount rest

/-- The hook installed as `window.onerror`, closed over the previously
registered handler `prev` (`originalOnError`).  It reports, then invokes
`prev` with the original five arguments when `prev` was set, and returns
`false`, which lets the runtime still run its default error handling. -/
def installedOnError {α : Type} (prev : Option (OnErrorArgs → α)) (env : BrowserEnv)
    (fetchRes : FetchOutcome) (a : OnErrorArgs) : List (HookTrace α) × Bool :=
  let rep := reportFrontendError (onErrorReportInput env a) (onErrorExtra a) env fetchRes
  let prevEvents : List (HookTrace α) :=
    match prev with
    | some h => [HookTrace.calledPrev (h a)]
    | none => []
  (HookTrace.reported rep.payload rep.fetchAttempts :: prevEvents, false)

/-- A `PromiseRejectionEvent` as far as the hook reads it: its `reason`. -/
structure RejectionEvent where
  reason : ErrorOrString
  deriving DecidableEq, Repr

/-- The hook installed as `window.onunhandledrejection`, closed over the
previously registered handler (`originalOnUnhandledRejection`). It reports
`event.reason` with `extra = { source: "unhandledrejection" }`, then invokes
the previous handler with the original event when one was set. -/
def installedOnUnhandledRejection {α : Type} (prev : Option (RejectionEvent → α))
    (env : BrowserEnv) (fetchRes : FetchOutcome) (ev : RejectionEvent) :
    List (HookTrace α) :=
  let rep := reportFrontendError ev.reason
    [("source", JSValue.str "unhandledrejection")] env fetchRes
  let prevEvents : List (HookTrace α) :=
    match prev with
    | some h => [HookTrace.calledPrev (h ev)]
    | none => []
  HookTrace.reported rep.payload rep.fetchAttempts :: prevEvents

/-- The request config object (`error.config` / `originalRequest`) the
interceptors touch: method, url, and the `_retry` flag the 401 handler sets
(absent/`undefined` reads as false, which the model folds into `false`). -/
structure RequestConfig where
  method : String
  url : String
  _retry : Bool
  deriving DecidableEq, Repr

/-- Modelled from the spec: the error taxonomy of the transport layer (axios
is an external library, not under src/) — (a) TransportError: network
unreachable, no response; (b) TimeoutError: configured deadline exceeded, no
response; (c) HttpStatusError: a response arrived with a non-2xx status.
Each carries the (possibly absent) request config, shared with the caller. -/
inductive RequestError where
  | timeoutErr : Option RequestConfig → RequestError
  | transportErr : Option RequestConfig → RequestError
  | httpStatusErr : Option RequestConfig → Nat → String → RequestError
  deriving DecidableEq, Repr

/-- `error.config` of a request error. -/
def errConfig : RequestError → Option RequestConfig
  | .timeoutErr c => c
  | .transportErr c => c
  | .httpStatusErr c _ _ => c

/-- `error.response?.status`: only an HTTP-status error has a response. -/
def errRespStatus : RequestError → Option Nat
  | .timeoutErr _ => none
  | .transportErr _ => none
  | .httpStatusErr _ s _ => some s

/-- Replace the config carried by an error (the config object is shared, so
mutating `originalRequest._retry` is visible through the error). -/
def setErrConfig : RequestError → Option RequestConfig → RequestError
  | .timeoutErr _, c => .timeoutErr c
  | .transportErr _, c => .transportErr c
  | .httpStatusErr _ s d, c => .httpStatusErr c s d

/-- The three error kinds, used to state that they stay distinguishable. -/
inductive ErrTag where
  | timeoutT : ErrTag
  | transportT : ErrTag
  | httpStatusT : ErrTag
  deriving DecidableEq, Repr

/-- The kind of a request error. -/
def errTag : RequestError → ErrTag
  | .timeoutErr _ => .timeoutT
  | .transportErr _ => .transportT
  | .httpStatusErr _ _ _ => .httpStatusT

/-- `originalRequest?._retry` coerced to a boolean, as the `!` in
`if (!originalRequest?._retry)` does: an absent config reads as falsy. -/
def optRetry : Option RequestConfig → Bool
  | some cfg => cfg._retry
  | none => false

/-- Whether the `signOut({ redirect: true, callbackUrl: "/auth/signin" })`
call resolves or rejects. -/
inductive SignOutOutcome where
  | success : SignOutOutcome
  | failure : String → SignOutOutcome
  deriving DecidableEq, Repr

/-- Console events emitted by the api client (`apps/web/lib/api.ts`). -/
inductive ApiLogEvent where
  | devRequestLog : String → String → ApiLogEvent
  | warnSessionExpired : ApiLogEvent
  | errorSignOutFailed : String → ApiLogEvent
  | devErrorLog : Option Nat → Option String → Option String → ApiLogEvent
  deriving DecidableEq, Repr

/-- The request interceptor: logs in development mode and returns the config
unchanged. -/
def requestInterceptor (cfg : RequestConfig) (dev : Bool) :
    RequestConfig × List ApiLogEvent :=
  (cfg, if dev then [ApiLogEvent.devRequestLog cfg.method cfg.url] else [])

/-- The parameters of one `signOut` invocation: `redirect` and `callbackUrl`. -/
structure SignOutParams where
  redirect : Bool
  callbackUrl : String
  deriving DecidableEq, Repr

/-- What the response error interceptor produces: `some e` when it returns
`Promise.reject(e)`; `none` when the interceptor itself threw (the
`originalRequest!._retry = true` write with an absent config), which would
replace the rejection.  `signOutInvocations` lists each `signOut` call with
its arguments, in order. -/
structure InterceptorOutcome where
  rejectedError : Option RequestError
  signOutInvocations : List SignOutParams
  logs : List ApiLogEvent
  deriving DecidableEq, Repr

/-- The development-mode error log line:
`console.error(..., error.response?.status, method, url, ...)`. -/
def devErrLogs (e : RequestError) (dev : Bool) : List ApiLogEvent :=
  if dev then
    [ApiLogEvent.devErrorLog (errRespStatus e)
      ((errConfig e).map RequestConfig.method)
      ((errConfig e).map RequestConfig.url)]
  else []

/-- The response error interceptor of `apps/web/lib/api.ts`:
on `error.response?.status === 401` it warns, and when
`!originalRequest?._retry` it sets `originalRequest!._retry = true` and
awaits `signOut({ redirect: true, callbackUrl: "/auth/signin" })` inside a
`try`/`catch` that only logs; then it logs in development mode and returns
`Promise.reject(error)`.  `so` is the outcome of the `signOut` call when one
happens. -/
def respErrorInterceptor (e : RequestError) (so : SignOutOutcome) (dev : Bool) :
    InterceptorOutcome :=
  let originalRequest := errConfig e
  if errRespStatus e = some 401 then
    if !(optRetry originalRequest) then
      match originalRequest with
      | none =>
          -- `originalRequest!._retry = true` throws a TypeError: the async
          -- interceptor rejects with that TypeError instead of `e`.
          { rejectedError := none,
            signOutInvocations := [],
            logs := [ApiLogEvent.warnSessionExpired] }
      | some cfg =>
          let e' := setErrConfig e (some { cfg with _retry := true })
          let soLogs := match so with
            | .success => []
            | .failure m => [ApiLogEvent.errorSignOutFailed m]
          { rejectedError := some e',
            signOutInvocations := [{ redirect := true, callbackUrl := "/auth/signin" }],
            logs := ApiLogEvent.warnSessionExpired :: soLogs ++ devErrLogs e' dev }
    else
      { rejectedError := some e,
        signOutInvocations := [],
        logs := ApiLogEvent.warnSessionExpired :: devErrLogs e dev }
  else
    { rejectedError := some e,
      signOutInvocations := [],
      logs := devErrLogs e dev }

/-- Modelled from the spec: the generic HTTP transport abstraction the client
wraps (axios' engine is external to src/): the attempt resolves with a 2xx
response, exceeds the configured deadline, fails at the network level, or
resolves with a non-2xx status. -/
inductive TransportOutcome where
  | success : Nat → String → TransportOutcome
  | timeout : TransportOutcome
  | netFailure : TransportOutcome
  | httpError : Nat → String → TransportOutcome
  deriving DecidableEq, Repr

/-- The result `send` hands to its caller: the response, a rejection carrying
a `RequestError`, or a rejection the interceptor itself threw. -/
inductive SendResult where
  | ok : Nat → String → SendResult
  | error : RequestError → SendResult
  | interceptorThrew : SendResult
  deriving DecidableEq, Repr

/-- The error kind visible in a send result, when it is an error. -/
def sendErrTag : SendResult → Option ErrTag
  | .ok _ _ => none
  | .error e => some (errTag e)
  | .interceptorThrew => none

/-- One call through the configured client: the request interceptor runs,
the transport settles, and on failure the transport's error (carrying the
request's config) flows through the response error interceptor. -/
def send (cfg : RequestConfig) (tr : TransportOutcome) (so : SignOutOutcome)
    (dev : Bool) : SendResult × List ApiLogEvent :=
  let (cfg1, logs1) := requestInterceptor cfg dev
  let finish (e : RequestError) : SendResult × List ApiLogEvent :=
    let out := respErrorInterceptor e so dev
    (match out.rejectedError with
      | some e' => SendResult.error e'
      | none => SendResult.interceptorThrew,
     logs1 ++ out.logs)
  match tr with
  | .success s d => (SendResult.ok s d, logs1)
  | .timeout => finish (RequestError.timeoutErr (some cfg1))
  | .netFailure => finish (RequestError.transportErr (some cfg1))
  | .httpError s d => finish (RequestError.httpStatusErr (some cfg1) s d)

/-- One operation of the client that runs over a live request config: the
request interceptor, or the response error interceptor fired with an error of
some shape carrying that config. -/
inductive ClientOp where
  | request : Bool → ClientOp
  | responseTimeout : SignOutOutcome → Bool → ClientOp
  | responseNet : SignOutOutcome → Bool → ClientOp
  | responseHttp : Nat → String → SignOutOutcome → Bool → ClientOp
  deriving Repr

/-- The error an operation presents to the response interceptor, around the
current config. -/
def opErr (cfg : RequestConfig) : ClientOp → Option RequestError
  | .request _ => none
  | .responseTimeout _ _ => some (RequestError.timeoutErr (some cfg))
  | .responseNet _ _ => some (RequestError.transportErr (some cfg))
  | .responseHttp s d _ _ => some (RequestError.httpStatusErr (some cfg) s d)

/-- The state of the request config after one client operation touches it. -/
def applyOp (cfg : RequestConfig) (op : ClientOp) : RequestConfig :=
  match op with
  | .request dev => (requestInterceptor cfg dev).1
  | .responseTimeout so dev =>
      match (respErrorInterceptor (RequestError.timeoutErr (some cfg)) so dev).rejectedError.bind errConfig with
      | some c => c
      | none => cfg
  | .responseNet so dev =>
      match (respErrorInterceptor (RequestError.transportErr (some cfg)) so dev).rejectedError.bind errConfig with
      | some c => c
      | none => cfg
  | .responseHttp s d so dev =>
      match (respErrorInterceptor (RequestError.httpStatusErr (some cfg) s d) so dev).rejectedError.bind errConfig with
      | some c => c
      | none => cfg

/-- The successive values of the `_retry` flag of one context as a sequence
of client operations runs over it (initial value first). -/
def retryTrace (cfg : RequestConfig) : List ClientOp → List Bool
  | [] => [cfg._retry]
  | op :: rest => cfg._retry :: retryTrace (applyOp cfg op) rest

/-- How many adjacent false-to-true transitions a boolean sequence has. -/
def ftCount : List Bool → Nat
  | [] => 0
  | [_] => 0
  | b1 :: b2 :: rest =>
      (if b1 = false ∧ b2 = true then 1 else 0) + ftCount (b2 :: rest)

/-- How many adjacent true-to-false transitions (resets) a sequence has. -/
def tfCount : List Bool → Nat
  | [] => 0
  | [_] => 0
  | b1 :: b2 :: rest =>
      (if b1 = true ∧ b2 = false then 1 else 0) + tfCount (b2 :: rest)

/-- C1: for every request whose error response has status exactly 401 and
whose config has `_retry` initially false, the response error interceptor
sets `_retry` to true and invokes `signOut` with `redirect: true` and
callback url `/auth/signin` exactly once for that context. -/
theorem c1_401_guard_false_signs_out_once (cfg : RequestConfig) (d : String)
    (so : SignOutOutcome) (dev : Bool) (h : cfg._retry = false) :
    (respErrorInterceptor (RequestError.httpStatusErr (some cfg) 401 d) so dev).signOutInvocations
      = [{ redirect := true, callbackUrl := "/auth/signin" }] ∧
    (respErrorInterceptor (RequestError.httpStatusErr (some cfg) 401 d) so dev).rejectedError.bind errConfig
      = some { cfg with _retry := true } := by
  simp [respErrorInterceptor, errRespStatus, errConfig, optRetry, setErrConfig, h]

/-- C1 witness: a concrete 401 with the guard initially false. -/
theorem c1_witness :
    (respErrorInterceptor
        (RequestError.httpStatusErr (some { method := "GET", url := "/api/projects", _retry := false }) 401 "")
        SignOutOutcome.success false).signOutInvocations
      = [{ redirect := true, callbackUrl := "/auth/signin" }] ∧
    (respErrorInterceptor
        (RequestError.httpStatusErr (some { method := "GET", url := "/api/projects", _retry := false }) 401 "")
        SignOutOutcome.success false).rejectedError.bind errConfig
      = some { method := "GET", url := "/api/projects", _retry := true } :=
  c1_401_guard_false_signs_out_once { method := "GET", url := "/api/projects", _retry := false }
    "" SignOutOutcome.success false rfl

/-- C2: the recovery callback is never invoked outside the
401-with-guard-false case: whenever the status is not 401 or the guard is
already truthy, `signOut` is not called. -/
theorem c2_no_signout_outside_401_guard_false (e : RequestError)
    (so : SignOutOutcome) (dev : Bool)
    (h : errRespStatus e ≠ some 401 ∨ optRetry (errConfig e) = true) :
    (respErrorInterceptor e so dev).signOutInvocations = [] := by
  rcases h with h | h
  · simp [respErrorInterceptor, h]
  · by_cases h401 : errRespStatus e = some 401
    · simp [respErrorInterceptor, h401, h]
    · simp [respErrorInterceptor, h401]

/-- C2 witness: a 404 error does not call `signOut`. -/
theorem c2_witness :
    (respErrorInterceptor
        (RequestError.httpStatusErr (some { method := "GET", url := "/api/projects", _retry := false }) 404 "")
        SignOutOutcome.success false).signOutInvocations = [] :=
  c2_no_signout_outside_401_guard_false
    (RequestError.httpStatusErr (some { method := "GET", url := "/api/projects", _retry := false }) 404 "")
    SignOutOutcome.success false (Or.inl (by decide))

/-- C4: if `signOut` rejects during 401 recovery, the failure is caught and
logged and the interceptor still rejects with the original request error
(same kind, status and data; only the shared config's `_retry` flag was
mutated): the recovery failure never replaces the error. -/
theorem c4_signout_failure_logged_not_masking (cfg : RequestConfig)
    (d m : String) (dev : Bool) (h : cfg._retry = false) :
    (respErrorInterceptor (RequestError.httpStatusErr (some cfg) 401 d)
        (SignOutOutcome.failure m) dev).rejectedError
      = some (RequestError.httpStatusErr (some { cfg with _retry := true }) 401 d) ∧
    ApiLogEvent.errorSignOutFailed m
      ∈ (respErrorInterceptor (RequestError.httpStatusErr (some cfg) 401 d)
          (SignOutOutcome.failure m) dev).logs ∧
    (respErrorInterceptor (RequestError.httpStatusErr (some cfg) 401 d)
        (SignOutOutcome.failure m) dev).signOutInvocations
      = [{ redirect := true, callbackUrl := "/auth/signin" }] := by
  simp [respErrorInterceptor, errRespStatus, errConfig, optRetry, setErrConfig, h]

/-- C4 witness: a concrete 401 whose `signOut` call rejects. -/
theorem c4_witness :
    (respErrorInterceptor
        (RequestError.httpStatusErr (some { method := "GET", url := "/api/projects", _retry := false }) 401 "expired")
        (SignOutOutcome.failure "network down") true).rejectedError
      = some (RequestError.httpStatusErr
          (some { method := "GET", url := "/api/projects", _retry := true }) 401 "expired") ∧
    ApiLogEvent.errorSignOutFailed "network down"
      ∈ (respErrorInterceptor
          (RequestError.httpStatusErr (some { method := "GET", url := "/api/projects", _retry := false }) 401 "expired")
          (SignOutOutcome.failure "network down") true).logs ∧
    (respErrorInterceptor
        (RequestError.httpStatusErr (some { method := "GET", url := "/api/projects", _retry := false }) 401 "expired")
        (SignOutOutcome.failure "network down") true).signOutInvocations
      = [{ redirect := true, callbackUrl := "/auth/signin" }] :=
  c4_signout_failure_logged_not_masking
    { method := "GET", url := "/api/projects", _retry := false } "expired" "network down" true rfl

/-- C5: a timed-out `send` yields a timeout error, a network failure yields a
transport error, a non-2xx response yields an HTTP-status error, and the
three kinds are pairwise distinct in the result handed to the caller (the
interceptor preserves the error's kind). -/
theorem c5_error_kinds_distinct (cfg : RequestConfig) (so : SignOutOutcome)
    (dev : Bool) (s : Nat) (d : String) :
    sendErrTag (send cfg TransportOutcome.timeout so dev).1 = some ErrTag.timeoutT ∧
    sendErrTag (send cfg TransportOutcome.netFailure so dev).1 = some ErrTag.transportT ∧
    sendErrTag (send cfg (TransportOutcome.httpError s d) so dev).1 = some ErrTag.httpStatusT ∧
    ErrTag.timeoutT ≠ ErrTag.transportT ∧
    ErrTag.timeoutT ≠ ErrTag.httpStatusT ∧
    ErrTag.transportT ≠ ErrTag.httpStatusT := by
  refine ⟨?_, ?_, ?_, by decide, by decide, by decide⟩
  · simp [send, requestInterceptor, respErrorInterceptor, errRespStatus, sendErrTag, errTag]
  · simp [send, requestInterceptor, respErrorInterceptor, errRespStatus, sendErrTag, errTag]
  · by_cases h401 : s = 401
    · subst h401
      by_cases hr : cfg._retry
      · simp [send, requestInterceptor, respErrorInterceptor, errRespStatus, errConfig,
          optRetry, hr, sendErrTag, errTag]
      · simp [send, requestInterceptor, respErrorInterceptor, errRespStatus, errConfig,
          optRetry, hr, setErrConfig, sendErrTag, errTag]
    · simp [send, requestInterceptor, respErrorInterceptor, errRespStatus, h401,
        sendErrTag, errTag]

/-- When the guard is already true, no client operation changes the config. -/
theorem applyOp_of_retry_true (cfg : RequestConfig) (op : ClientOp)
    (h : cfg._retry = true) : applyOp cfg op = cfg := by
  cases op with
  | request dev => rfl
  | responseTimeout so dev =>
      simp [applyOp, respErrorInterceptor, errRespStatus, errConfig]
  | responseNet so dev =>
      simp [applyOp, respErrorInterceptor, errRespStatus, errConfig]
  | responseHttp s d so dev =>
      by_cases h401 : s = 401
      · subst h401
        simp [applyOp, respErrorInterceptor, errRespStatus, errConfig, optRetry, h]
      · simp [applyOp, respErrorInterceptor, errRespStatus, errConfig, h401]

/-- A retry trace always starts at the context's current flag value. -/
theorem retryTrace_shape (cfg : RequestConfig) (ops : List ClientOp) :
    ∃ t, retryTrace cfg ops = cfg._retry :: t := by
  cases ops <;> exact ⟨_, rfl⟩

/-- Once the guard is true, the rest of the trace has no transitions at all. -/
theorem retryTrace_counts_of_true (cfg : RequestConfig) (ops : List ClientOp)
    (h : cfg._retry = true) :
    ftCount (retryTrace cfg ops) = 0 ∧ tfCount (retryTrace cfg ops) = 0 := by
  induction ops generalizing cfg with
  | nil => simp [retryTrace, ftCount, tfCount]
  | cons op rest ih =>
      have hstay : applyOp cfg op = cfg := applyOp_of_retry_true cfg op h
      have ihres := ih (applyOp cfg op) (by rw [hstay]; exact h)
      obtain ⟨t, ht⟩ := retryTrace_shape (applyOp cfg op) rest
      have hhead : (applyOp cfg op)._retry = true := by rw [hstay]; exact h
      rw [hhead] at ht
      rw [ht] at ihres
      rw [retryTrace, ht, h]
      constructor
      · simp only [ftCount]
        simpa using ihres.1
      · simp only [tfCount]
        simpa using ihres.2

/-- C3: over any sequence of client operations on one context, the `_retry`
flag is never reset from true to false, and it transitions from false to
true at most once. -/
theorem c3_retry_guard_monotone (cfg : RequestConfig) (ops : List ClientOp) :
    tfCount (retryTrace cfg ops) = 0 ∧ ftCount (retryTrace cfg ops) ≤ 1 := by
  induction ops generalizing cfg with
  | nil => simp [retryTrace, ftCount, tfCount]
  | cons op rest ih =>
      obtain ⟨t, ht⟩ := retryTrace_shape (applyOp cfg op) rest
      by_cases h : cfg._retry = true
      · have := retryTrace_counts_of_true cfg (op :: rest) h
        exact ⟨this.2, by rw [this.1]; exact Nat.zero_le 1⟩
      · have hfalse : cfg._retry = false := by
          cases hc : cfg._retry
          · rfl
          · exact absurd hc h
        by_cases h2 : (applyOp cfg op)._retry = true
        · have tailz := retryTrace_counts_of_true (applyOp cfg op) rest h2
          rw [h2] at ht
          rw [ht] at tailz
          rw [retryTrace, ht, hfalse]
          constructor
          · simp only [tfCount]
            simpa using tailz.2
          · simp only [ftCount]
            simpa using tailz.1
        · have h2f : (applyOp cfg op)._retry = false := by
            cases hc : (applyOp cfg op)._retry
            · rfl
            · exact absurd hc h2
          have ihres := ih (applyOp cfg op)
          rw [h2f] at ht
          rw [ht] at ihres
          rw [retryTrace, ht, hfalse]
          constructor
          · simp only [tfCount]
            simpa using ihres.1
          · simp only [ftCount]
            simpa using ihres.2

/-- C6: `reportFrontendError` completes without throwing for every input:
a rejected delivery fetch or a non-ok collector response is caught and
logged locally, nothing propagates to the caller, and exactly one fetch
attempt is made (no retry). -/
theorem c6_report_never_throws (e : ErrorOrString) (extra : JSObject)
    (env : BrowserEnv) :
    (∀ f, (reportFrontendError e extra env f).threw = false ∧
          (reportFrontendError e extra env f).fetchAttempts = 1) ∧
    (∀ m, (reportFrontendError e extra env (FetchOutcome.rejected m)).logs
        = [MonLogEvent.errorReportingFailed m]) ∧
    (∀ t, (reportFrontendError e extra env (FetchOutcome.notOk t)).logs
        = [MonLogEvent.warnFailedReport t]) := by
  refine ⟨fun f => ?_, fun m => rfl, fun t => rfl⟩
  cases f <;> exact ⟨rfl, rfl⟩

/-- C7: an unhandled rejection whose reason is a plain string `s` produces a
report whose `message` is `s` and whose `stack` is `undefined`. -/
theorem c7_string_rejection_payload {α : Type} (prev : Option (RejectionEvent → α))
    (s : String) (env : BrowserEnv) (f : FetchOutcome) :
    getProp (buildPayload (ErrorOrString.strv s)
        [("source", JSValue.str "unhandledrejection")] env) "message" = JSValue.str s ∧
    getProp (buildPayload (ErrorOrString.strv s)
        [("source", JSValue.str "unhandledrejection")] env) "stack" = JSValue.undef ∧
    (∃ rest, installedOnUnhandledRejection prev env f { reason := ErrorOrString.strv s }
        = HookTrace.reported (buildPayload (ErrorOrString.strv s)
            [("source", JSValue.str "unhandledrejection")] env) 1 :: rest) := by
  refine ⟨?_, ?_, ?_⟩
  · simp [getProp, buildPayload, errMessage, errStack, optStrVal]
  · simp [getProp, buildPayload, errMessage, errStack, optStrVal]
  · cases f <;> exact ⟨_, rfl⟩

/-- C8: the installed `window.onerror` hook builds one report whose message
is the error's message (or the stringified `msg` when no error object is
supplied) with source `window.onerror`, hands it to exactly one delivery
attempt, and returns `false`, so the runtime still performs its default
error handling. -/
theorem c8_onerror_reports_and_allows_default {α : Type}
    (prev : Option (OnErrorArgs → α)) (env : BrowserEnv) (f : FetchOutcome)
    (a : OnErrorArgs) :
    (installedOnError prev env f a).2 = false ∧
    reportedCount (installedOnError prev env f a).1 = 1 ∧
    (∃ rest, (installedOnError prev env f a).1
        = HookTrace.reported (buildPayload (onErrorReportInput env a) (onErrorExtra a) env) 1 :: rest) ∧
    getProp (buildPayload (onErrorReportInput env a) (onErrorExtra a) env) "message"
      = JSValue.str (match a.error with | some e => e.message | none => a.msg) ∧
    getProp (buildPayload (onErrorReportInput env a) (onErrorExtra a) env) "source"
      = JSValue.str "window.onerror" := by
  refine ⟨rfl, ?_, ?_, ?_, ?_⟩
  · cases prev <;> rfl
  · cases f <;> exact ⟨_, rfl⟩
  · cases herr : a.error <;>
      simp [getProp, buildPayload, onErrorReportInput, onErrorExtra, errMessage, herr]
  · simp [getProp, buildPayload, onErrorExtra]

/-- C9: installing the telemetry hooks chains rather than replaces: with a
previously registered handler present, each installed hook first reports,
then invokes the previous handler with the original arguments. -/
theorem c9_hooks_chain {α β : Type} (h1 : OnErrorArgs → α) (h2 : RejectionEvent → β)
    (env : BrowserEnv) (f : FetchOutcome) (a : OnErrorArgs) (ev : RejectionEvent) :
    (installedOnError (some h1) env f a).1
      = [HookTrace.reported (buildPayload (onErrorReportInput env a) (onErrorExtra a) env) 1,
         HookTrace.calledPrev (h1 a)] ∧
    installedOnUnhandledRejection (some h2) env f ev
      = [HookTrace.reported (buildPayload ev.reason
            [("source", JSValue.str "unhandledrejection")] env) 1,
         HookTrace.calledPrev (h2 ev)] := by
  cases f <;> exact ⟨rfl, rfl⟩

/-- C10: because `extra` is spread after the base payload fields, the payload
delivered for a `window.onerror` report carries the hook's `url` argument,
not `window.location.href`; when that argument is absent the `url` field is
`undefined`, not a string. -/
theorem c10_extra_overrides_url (env : BrowserEnv) (a : OnErrorArgs) :
    getProp (buildPayload (onErrorReportInput env a) (onErrorExtra a) env) "url"
      = optStrVal a.url ∧
    (a.url = none →
      getProp (buildPayload (onErrorReportInput env a) (onErrorExtra a) env) "url"
        = JSValue.undef ∧
      ∀ s : String,
        getProp (buildPayload (onErrorReportInput env a) (onErrorExtra a) env) "url"
          ≠ JSValue.str s) := by
  have hurl : getProp (buildPayload (onErrorReportInput env a) (onErrorExtra a) env) "url"
      = optStrVal a.url := by
    simp [getProp, buildPayload, onErrorExtra]
  refine ⟨hurl, fun hnone => ?_⟩
  rw [hurl, hnone]
  exact ⟨rfl, fun s h => by simp [optStrVal] at h⟩

/-- C10 witness: a concrete `window.onerror` firing with an absent `url`
argument, in a browser whose `window.location.href` is a string. -/
theorem c10_witness :
    getProp (buildPayload
        (onErrorReportInput
          { windowDefined := true, navigatorDefined := true,
            locationHref := "https://app.example/page", userAgent := "UA",
            nowISO := "2026-01-01T00:00:00.000Z", freshErrorStack := none }
          { msg := "boom", url := none, line := none, col := none, error := none })
        (onErrorExtra { msg := "boom", url := none, line := none, col := none, error := none })
        { windowDefined := true, navigatorDefined := true,
          locationHref := "https://app.example/page", userAgent := "UA",
          nowISO := "2026-01-01T00:00:00.000Z", freshErrorStack := none }) "url"
      = JSValue.undef ∧
    ∀ s : String,
      getProp (buildPayload
          (onErrorReportInput
            { windowDefined := true, navigatorDefined := true,
              locationHref := "https://app.example/page", userAgent := "UA",
              nowISO := "2026-01-01T00:00:00.000Z", freshErrorStack := none }
            { msg := "boom", url := none, line := none, col := none, error := none })
          (onErrorExtra { msg := "boom", url := none, line := none, col := none, error := none })
          { windowDefined := true, navigatorDefined := true,
            locationHref := "https://app.example/page", userAgent := "UA",
            nowISO := "2026-01-01T00:00:00.000Z", freshErrorStack := none }) "url"
        ≠ JSValue.str s :=
  (c10_extra_overrides_url
    { windowDefined := true, navigatorDefined := true,
      locationHref := "https://app.example/page", userAgent := "UA",
      nowISO := "2026-01-01T00:00:00.000Z", freshErrorStack := none }
    { msg := "boom", url := none, line := none, col := none, error := none }).2 rfl

end CursorCode
